import Mathlib

/-!
Verification of the bird-identifier backend's route layer.

The definitions below are a shallow embedding of the bird router source file
(validation middleware `mwValidBirdsBody` and the five endpoint handlers
mounted on `birdRouter`), together with a relational model of the Postgres
pool the handlers query.  The `Birds` table schema is taken from the SQL
provisioning script shipped with the repository.
-/

namespace BirdApi

/-- A JavaScript value, as it appears in a request-body field.  Arrays are
modelled at the granularity the routes use them: arrays of name strings (the
routes document the array-valued body fields as `{String[]}`).  A field
absent from the body reads as `undef`. -/
inductive JsVal where
  | undef
  | nullV
  | boolV (b : Bool)
  | numV (n : Int)
  | strV (s : String)
  | arrV (elems : List String)
  deriving DecidableEq

/-- `Array.isArray(v)` -/
def JsVal.isArray : JsVal → Bool
  | .arrV _ => true
  | _ => false

/-- The request-body fields the bird routes read.  The three array-typed
fields keep their JavaScript value; the thirteen bird fields are nullable
strings which the PUT/POST handlers pass straight to the pool as query
parameters (`none` stands for an absent/undefined field, which the driver
sends as SQL NULL). -/
structure Body where
  birds : JsVal := .undef
  birdNames : JsVal := .undef
  names : JsVal := .undef
  formattedComName : Option String := none
  comName : Option String := none
  sciName : Option String := none
  previewPhoto : Option String := none
  maleBreedingPhoto : Option String := none
  maleNonbreedingPhoto : Option String := none
  femalePhoto : Option String := none
  sound : Option String := none
  shortDesc : Option String := none
  longDesc : Option String := none
  howToFind : Option String := none
  habitat : Option String := none
  learnMoreLink : Option String := none
  deriving DecidableEq

/-- A stored row: an association list from column name to nullable value. -/
abbrev Row := List (String × Option String)

/-- The `Birds` table contents. -/
abbrev DB := List Row

/-- The value of column `c` in row `r` (`none` both for NULL and for a
column the row does not carry). -/
def rowGet (r : Row) (c : String) : Option String :=
  (r.lookup c).join

/-- A table's declared columns and constraints, as in the provisioning
script's `CREATE TABLE`. -/
structure TableSchema where
  columns : List String
  notNull : List String
  primaryKey : String
  deriving DecidableEq

/-- The `Birds` table as the repository's SQL provisioning script creates it:
twelve columns, `Formatted_Com_Name` the primary key, `Com_Name` NOT NULL.
Note the script declares no `Habitat` column. -/
def birdsSchema : TableSchema where
  columns := ["Formatted_Com_Name", "Com_Name", "Sci_Name", "Preview_Photo",
    "Male_Breeding_Photo", "Male_Nonbreeding_Photo", "Female_Photo", "Sound",
    "Short_Desc", "Long_Desc", "How_To_Find", "Learn_More_Link"]
  notNull := ["Formatted_Com_Name", "Com_Name"]
  primaryKey := "Formatted_Com_Name"

/-- The `Birds` table extended with the `Habitat` column that the router's
INSERT and UPDATE statements reference.  The database is an external
collaborator, so its schema is a model parameter: this is the schema under
which those statements are well-formed (the shipped script's schema is
`birdsSchema` above, which lacks the column). -/
def birdsSchemaWithHabitat : TableSchema where
  columns := ["Formatted_Com_Name", "Com_Name", "Sci_Name", "Preview_Photo",
    "Male_Breeding_Photo", "Male_Nonbreeding_Photo", "Female_Photo", "Sound",
    "Short_Desc", "Long_Desc", "How_To_Find", "Habitat", "Learn_More_Link"]
  notNull := ["Formatted_Com_Name", "Com_Name"]
  primaryKey := "Formatted_Com_Name"

/-- Postgres errors the modelled statements can raise.  `emptyInList` is the
parse error a textually empty `IN ()` list provokes. -/
inductive SqlErr where
  | emptyInList
  | undefinedColumn (c : String)
  | notNullViolation (c : String)
  | uniqueViolation
  deriving DecidableEq

/-- The driver error's `detail` field.  Parse errors and undefined-column
errors carry no detail (the field is absent); the data-dependent details are
abbreviated here — no theorem below depends on their exact text. -/
def SqlErr.detail : SqlErr → Option String
  | .emptyInList => none
  | .undefinedColumn _ => none
  | .notNullViolation c => some ("null value in column " ++ c)
  | .uniqueViolation => some "Key already exists."

/-- `'Error: ' + err.detail` — JavaScript string concatenation renders an
absent `detail` field as `undefined`. -/
def jsErrMessage (e : SqlErr) : String :=
  "Error: " ++ (match e.detail with | some d => d | none => "undefined")

/-- The first column a statement references that the table does not declare
(Postgres rejects the statement during analysis, before touching any row). -/
def firstMissingColumn (ts : TableSchema) (cols : List String) : Option String :=
  cols.find? (fun c => !(ts.columns.contains c))

/-- The row an INSERT with column list `cols` and values `vals` stores:
every declared column, valued from `cols ↦ vals` where named, NULL
otherwise. -/
def mkRow (ts : TableSchema) (cols : List String) (vals : List (Option String)) : Row :=
  ts.columns.map (fun c => (c, ((cols.zip vals).lookup c).join))

/-- The first NOT NULL column that row `r` leaves NULL, if any. -/
def nullViolation (ts : TableSchema) (r : Row) : Option String :=
  ts.notNull.find? (fun c => (rowGet r c).isNone)

/-- `INSERT INTO birds (cols) VALUES (vals) RETURNING *` against store `db`:
fails on an undefined column, a NOT NULL violation or a duplicate primary
key; otherwise returns the stored row and the extended store. -/
def dbInsert (ts : TableSchema) (cols : List String) (vals : List (Option String))
    (db : DB) : Except SqlErr (Row × DB) :=
  match firstMissingColumn ts cols with
  | some c => .error (.undefinedColumn c)
  | none =>
    let row := mkRow ts cols vals
    match nullViolation ts row with
    | some c => .error (.notNullViolation c)
    | none =>
      if db.any (fun r => rowGet r ts.primaryKey == rowGet row ts.primaryKey) then
        .error .uniqueViolation
      else
        .ok (row, db ++ [row])

/-- The row a matched row becomes under `SET setCols = setVals`. -/
def updateRow (ts : TableSchema) (setCols : List String) (setVals : List (Option String))
    (r : Row) : Row :=
  ts.columns.map (fun c =>
    (c, match (setCols.zip setVals).lookup c with
        | some v => v
        | none => rowGet r c))

/-- `UPDATE birds SET ... WHERE Formatted_Com_Name = keyVal RETURNING *`:
fails on an undefined column or a NOT NULL violation among the updated rows;
otherwise returns the updated rows and the new store.  The statement issued
by the router never updates the primary key, so no uniqueness re-check is
modelled. -/
def dbUpdate (ts : TableSchema) (setCols : List String) (setVals : List (Option String))
    (keyVal : String) (db : DB) : Except SqlErr (List Row × DB) :=
  match firstMissingColumn ts setCols with
  | some c => .error (.undefinedColumn c)
  | none =>
    let hit := fun r => rowGet r ts.primaryKey == some keyVal
    let updated := (db.filter hit).map (updateRow ts setCols setVals)
    match updated.findSome? (fun r => nullViolation ts r) with
    | some c => .error (.notNullViolation c)
    | none =>
      .ok (updated, db.map (fun r => if hit r then updateRow ts setCols setVals r else r))

/-- `SELECT * FROM Birds WHERE Formatted_Com_Name IN (names)`: a zero-length
name list yields the invalid text `IN ()`, which Postgres rejects at parse
time; otherwise the matching rows, in store order. -/
def dbSelectByNames (ts : TableSchema) (names : List String) (db : DB) :
    Except SqlErr (List Row) :=
  if names.isEmpty then .error .emptyInList
  else .ok (db.filter (fun r => names.any (fun n => rowGet r ts.primaryKey == some n)))

/-- `DELETE FROM Birds WHERE Formatted_Com_Name IN (names)`: same parse
error on an empty list; otherwise the affected-row count and the remaining
store. -/
def dbDelete (ts : TableSchema) (names : List String) (db : DB) :
    Except SqlErr (Nat × DB) :=
  if names.isEmpty then .error .emptyInList
  else
    .ok ((db.filter (fun r => names.any (fun n => rowGet r ts.primaryKey == some n))).length,
      db.filter (fun r => !(names.any (fun n => rowGet r ts.primaryKey == some n))))

/-- `birdNames.map((_, i) => `$${i + 1}`).join(',')` — one positional
placeholder per supplied name. -/
def placeholders (ns : List String) : String :=
  String.intercalate "," (ns.enum.map (fun p => "$" ++ toString (p.1 + 1)))

/-- The list-all query text. -/
def getAllQuery : String := "SELECT * FROM Birds"

/-- The lookup-by-names query text built by the GET / handler. -/
def getByNamesQuery (ns : List String) : String :=
  "SELECT * FROM Birds WHERE Formatted_Com_Name IN (" ++ placeholders ns ++ ");"

/-- The delete query text built by the DELETE / handler (same construction
as the lookup). -/
def deleteQuery (ns : List String) : String :=
  "DELETE FROM Birds WHERE Formatted_Com_Name IN (" ++ placeholders ns ++ ");"

/-- The PUT handler's UPDATE statement (whitespace normalised from the
source's multi-line template literal). -/
def updateQuery : String :=
  "UPDATE birds SET Com_Name = $1, Sci_Name = $2, Preview_Photo = $3, Male_Breeding_Photo = $4, Male_Nonbreeding_Photo = $5, Female_Photo = $6, Sound = $7, Short_Desc = $8, Long_Desc = $9, How_To_Find = $10, Habitat = $11, Learn_More_Link = $12 WHERE Formatted_Com_Name = $13 RETURNING *;"

/-- The POST handler's INSERT statement (whitespace normalised from the
source's multi-line template literal). -/
def insertQuery : String :=
  "INSERT INTO birds (Formatted_Com_Name, Com_Name, Sci_Name, Preview_Photo, Male_Breeding_Photo, Male_Nonbreeding_Photo, Female_Photo, Sound, Short_Desc, Long_Desc, How_To_Find, Habitat, Learn_More_Link) VALUES ($1, $2, $3, $4, $5, $6, $7, $8, $9, $10, $11, $12, $13) RETURNING *;"

/-- The columns the INSERT statement names, in order. -/
def insertColumns : List String :=
  ["Formatted_Com_Name", "Com_Name", "Sci_Name", "Preview_Photo",
   "Male_Breeding_Photo", "Male_Nonbreeding_Photo", "Female_Photo", "Sound",
   "Short_Desc", "Long_Desc", "How_To_Find", "Habitat", "Learn_More_Link"]

/-- The columns the UPDATE statement sets, in order ($1..$12). -/
def updateSetColumns : List String :=
  ["Com_Name", "Sci_Name", "Preview_Photo", "Male_Breeding_Photo",
   "Male_Nonbreeding_Photo", "Female_Photo", "Sound", "Short_Desc",
   "Long_Desc", "How_To_Find", "Habitat", "Learn_More_Link"]

/-- A parameterized query as sent to the pool: text and parameter list. -/
abbrev Issued := String × List (Option String)

/-- A response body: a JSON array of rows, a single row, a message object,
or a message object that also echoes a `birdNames` array. -/
inductive RespBody where
  | rows (rs : List Row)
  | row (r : Row)
  | msg (m : String)
  | msgNames (m : String) (ns : List String)
  deriving DecidableEq

/-- What one request produces: an HTTP response (status, body), the store
afterwards, and the queries sent to the pool — or a synchronously thrown
JavaScript exception, after which no response is written. -/
inductive Outcome where
  | res (status : Nat) (body : RespBody) (db : DB) (issued : List Issued)
  | thrown (db : DB) (issued : List Issued)
  deriving DecidableEq

/-- The response status, if a response was written. -/
def Outcome.statusOf : Outcome → Option Nat
  | .res s _ _ _ => some s
  | .thrown _ _ => none

/-- The queries the request sent to the pool. -/
def Outcome.issuedOf : Outcome → List Issued
  | .res _ _ _ is => is
  | .thrown _ is => is

/-- What the middleware does: pass the request on, or short-circuit with a
response. -/
inductive MwResult where
  | next
  | halt (status : Nat) (body : RespBody)
  deriving DecidableEq

/-- `mwValidBirdsBody`: accept when `request.body.birds` is an array, else
respond 400 with the fixed diagnostic. -/
def mwValidBirdsBody (body : Body) : MwResult :=
  if body.birds.isArray then .next
  else .halt 400 (.msg "Invalid or missing Bird - please refer to documentation")

/-- A pool result as the driver hands it to `.then`: the row set and the
affected/matched row count. -/
structure QueryResult where
  rows : List Row
  rowCount : Nat
  deriving DecidableEq

/-- The GET /all handler's `.then`/`.catch` continuation: 200 with the rows
when `rowCount >= 1`, 404 otherwise, and on query failure 500 with a generic
message (the error is only logged, never echoed). -/
def getAllBirdsCont (db : DB) (result : Except SqlErr QueryResult) : Outcome :=
  match result with
  | .ok res =>
    if res.rowCount ≥ 1 then .res 200 (.rows res.rows) db [(getAllQuery, [])]
    else .res 404 (.msg "No birds were found in the database") db [(getAllQuery, [])]
  | .error _ => .res 500 (.msg "server error - contact support") db [(getAllQuery, [])]

/-- GET /all: unconditional select over the table, then the continuation. -/
def getAllBirds (db : DB) : Outcome :=
  getAllBirdsCont db (.ok { rows := db, rowCount := db.length })

/-- The GET / handler body: reads `request.body.birdNames` (not the field
the middleware validated) and calls `.map` on it — a TypeError when it is
not an array, thrown before any query is issued. -/
def getBirdsByNamesHandler (ts : TableSchema) (db : DB) (body : Body) : Outcome :=
  match body.birdNames with
  | .arrV birdNames =>
    match dbSelectByNames ts birdNames db with
    | .ok rs => .res 200 (.rows rs) db [(getByNamesQuery birdNames, birdNames.map some)]
    | .error e => .res 400 (.msg (jsErrMessage e)) db
        [(getByNamesQuery birdNames, birdNames.map some)]
  | _ => .thrown db []

/-- GET / as routed: `mwValidBirdsBody` first, then the handler. -/
def getBirdsByNames (ts : TableSchema) (db : DB) (body : Body) : Outcome :=
  match mwValidBirdsBody body with
  | .halt s b => .res s b db []
  | .next => getBirdsByNamesHandler ts db body

/-- The PUT handler's parameter list $1..$12, read from the body. -/
def putParams (b : Body) : List (Option String) :=
  [b.comName, b.sciName, b.previewPhoto, b.maleBreedingPhoto,
   b.maleNonbreedingPhoto, b.femalePhoto, b.sound, b.shortDesc,
   b.longDesc, b.howToFind, b.habitat, b.learnMoreLink]

/-- PUT /:formattedComName — no middleware is registered on this route. -/
def updateBird (ts : TableSchema) (db : DB) (birdName : String) (body : Body) : Outcome :=
  match dbUpdate ts updateSetColumns (putParams body) birdName db with
  | .ok (updated, db2) =>
    if updated.length > 0 then
      .res 200 (.row (updated.headD [])) db2 [(updateQuery, putParams body ++ [some birdName])]
    else
      .res 404 (.msg "No bird found with the provided name.") db2
        [(updateQuery, putParams body ++ [some birdName])]
  | .error e => .res 400 (.msg (jsErrMessage e)) db
      [(updateQuery, putParams body ++ [some birdName])]

/-- The POST handler's parameter list $1..$13, read from the body. -/
def postParams (b : Body) : List (Option String) :=
  [b.formattedComName, b.comName, b.sciName, b.previewPhoto,
   b.maleBreedingPhoto, b.maleNonbreedingPhoto, b.femalePhoto, b.sound,
   b.shortDesc, b.longDesc, b.howToFind, b.habitat, b.learnMoreLink]

/-- POST / — no middleware is registered on this route. -/
def addBird (ts : TableSchema) (db : DB) (body : Body) : Outcome :=
  match dbInsert ts insertColumns (postParams body) db with
  | .ok (row, db2) => .res 200 (.row row) db2 [(insertQuery, postParams body)]
  | .error e => .res 400 (.msg (jsErrMessage e)) db [(insertQuery, postParams body)]

/-- DELETE / — the validation middleware on this route is commented out in
the source, so every body reaches the handler, which reads
`request.body.names` and calls `.map` on it: a non-array throws a TypeError
before any query is issued. -/
def deleteBirds (ts : TableSchema) (db : DB) (body : Body) : Outcome :=
  match body.names with
  | .arrV birdNames =>
    match dbDelete ts birdNames db with
    | .ok (cnt, db2) =>
      if cnt > 0 then
        .res 200 (.msgNames (toString cnt ++ " bird(s) deleted successfully.") birdNames)
          db2 [(deleteQuery birdNames, birdNames.map some)]
      else
        .res 404 (.msgNames "No birds found with the provided names." birdNames)
          db2 [(deleteQuery birdNames, birdNames.map some)]
    | .error e => .res 400 (.msg (jsErrMessage e)) db
        [(deleteQuery birdNames, birdNames.map some)]
  | _ => .thrown db []


/-- The row the sample scenarios store for the American Robin. -/
def robinRow : Row :=
  [("Formatted_Com_Name", some "AmericanRobin"), ("Com_Name", some "American Robin")]

/-- The spec's sample record, every field supplied. -/
def sampleBird : Body :=
  { formattedComName := some "AmericanRobin", comName := some "American Robin",
    sciName := some "Turdus migratorius", previewPhoto := some "preview.jpg",
    maleBreedingPhoto := some "mb.jpg", maleNonbreedingPhoto := some "mnb.jpg",
    femalePhoto := some "f.jpg", sound := some "song.mp3",
    shortDesc := some "short", longDesc := some "long",
    howToFind := some "look up", habitat := some "woodland",
    learnMoreLink := some "link" }

/-- The row the POST of `sampleBird` stores. -/
def sampleBirdRow : Row :=
  mkRow birdsSchemaWithHabitat insertColumns (postParams sampleBird)

/-- C1: the GET / validator accepts exactly the bodies whose `birds` field is
an array, while the handler reads `birdNames`; a body with `birds` an array
and `birdNames` absent passes validation yet the handler throws on `.map`
before issuing any query, producing none of the documented responses. -/
theorem lookup_validates_birds_but_reads_birdNames :
    (∀ body : Body, mwValidBirdsBody body = .next ↔ body.birds.isArray = true)
    ∧ ∃ body : Body, body.birds.isArray = true ∧ body.birdNames = .undef ∧
        ∀ (ts : TableSchema) (db : DB), getBirdsByNames ts db body = .thrown db [] := by
  constructor
  · intro body
    constructor
    · intro h
      by_contra hb
      simp [mwValidBirdsBody, hb] at h
    · intro h
      simp [mwValidBirdsBody, h]
  · exact ⟨{ birds := .arrV [] }, rfl, rfl, fun ts db => rfl⟩

/-- C2 (evaluation at the failing input): a lookup with an empty name array
builds the invalid text `IN ()`, the pool rejects it, and the route answers
400 — not the 200-with-empty-array the spec intends. -/
theorem empty_lookup_answers_400 (db : DB) :
    getBirdsByNames birdsSchema db { birds := .arrV [], birdNames := .arrV [] } =
      .res 400 (.msg "Error: undefined") db
        [("SELECT * FROM Birds WHERE Formatted_Com_Name IN ();", [])] := rfl

/-- C3: against the shipped schema (no `Habitat` column) every POST and
every PUT is rejected by the store with an undefined-column error and takes
the 400 branch; the store is never changed. -/
theorem create_update_always_400_on_shipped_schema (db : DB) (body : Body) (birdName : String) :
    addBird birdsSchema db body =
      .res 400 (.msg "Error: undefined") db [(insertQuery, postParams body)]
    ∧ updateBird birdsSchema db birdName body =
      .res 400 (.msg "Error: undefined") db [(updateQuery, putParams body ++ [some birdName])] :=
  ⟨rfl, rfl⟩

/-- C8: the GET /all result mapping — at least one row gives 200 with the
rows, zero rows gives 404 with the fixed message, and a query failure gives
500 with a generic message that is the same constant for every error. -/
theorem get_all_status_mapping :
    (∀ (db : DB) (result : QueryResult), 1 ≤ result.rowCount →
        getAllBirdsCont db (.ok result) = .res 200 (.rows result.rows) db [(getAllQuery, [])])
    ∧ (∀ (db : DB) (result : QueryResult), result.rowCount = 0 →
        getAllBirdsCont db (.ok result) =
          .res 404 (.msg "No birds were found in the database") db [(getAllQuery, [])])
    ∧ (∀ (db : DB) (e : SqlErr),
        getAllBirdsCont db (.error e) =
          .res 500 (.msg "server error - contact support") db [(getAllQuery, [])]) := by
  refine ⟨?_, ?_, ?_⟩
  · intro db result h
    simp [getAllBirdsCont, h]
  · intro db result h
    simp [getAllBirdsCont, h]
  · intro db e
    rfl

/-- C10: the DELETE / route has no validation middleware, so any body whose
`names` field is not an array reaches the handler and the `.map` call throws
a TypeError synchronously — no query is issued and no response written. -/
theorem delete_throws_on_nonarray_names (ts : TableSchema) (db : DB) (body : Body)
    (h : body.names.isArray = false) :
    deleteBirds ts db body = .thrown db [] := by
  cases hb : body.names <;> simp [deleteBirds, hb, JsVal.isArray] at h ⊢

/-- C10 witness: the empty body (its `names` field is undefined). -/
theorem delete_throws_on_nonarray_names_witness :
    deleteBirds birdsSchema [] {} = .thrown [] [] :=
  delete_throws_on_nonarray_names birdsSchema [] {} rfl


/-- The placeholder list ignores the names themselves: it is determined by
the positions, placeholder i + 1 at index i. -/
theorem placeholders_eq_range (ns : List String) :
    placeholders ns =
      String.intercalate "," ((List.range ns.length).map (fun i => "$" ++ toString (i + 1))) := by
  unfold placeholders
  rw [show (fun p : Nat × String => "$" ++ toString (p.1 + 1)) =
        (fun i => "$" ++ toString (i + 1)) ∘ Prod.fst from rfl,
    ← List.map_map, List.enum_map_fst]

/-- C9: for a non-empty list of n names, the lookup and delete statements
carry the IN clause `$1,...,$n` — one placeholder per name, in input order —
and both routes pass the names as the query parameters, in that order. -/
theorem in_clause_one_placeholder_per_name (ns : List String) (_hne : ns ≠ []) :
    getByNamesQuery ns =
      "SELECT * FROM Birds WHERE Formatted_Com_Name IN (" ++
        String.intercalate "," ((List.range ns.length).map (fun i => "$" ++ toString (i + 1))) ++ ");"
    ∧ deleteQuery ns =
      "DELETE FROM Birds WHERE Formatted_Com_Name IN (" ++
        String.intercalate "," ((List.range ns.length).map (fun i => "$" ++ toString (i + 1))) ++ ");"
    ∧ (∀ (ts : TableSchema) (db : DB) (body : Body),
        body.birds.isArray = true → body.birdNames = .arrV ns →
        (getBirdsByNames ts db body).issuedOf = [(getByNamesQuery ns, ns.map some)])
    ∧ (∀ (ts : TableSchema) (db : DB) (body : Body),
        body.names = .arrV ns →
        (deleteBirds ts db body).issuedOf = [(deleteQuery ns, ns.map some)]) := by
  refine ⟨?_, ?_, ?_, ?_⟩
  · rw [getByNamesQuery, placeholders_eq_range]
  · rw [deleteQuery, placeholders_eq_range]
  · intro ts db body hb hn
    have hmw : mwValidBirdsBody body = .next := by simp [mwValidBirdsBody, hb]
    simp only [getBirdsByNames, hmw, getBirdsByNamesHandler, hn]
    cases h : dbSelectByNames ts ns db <;> simp [Outcome.issuedOf]
  · intro ts db body hn
    simp only [deleteBirds, hn]
    cases h : dbDelete ts ns db with
    | ok p =>
      rcases p with ⟨cnt, db2⟩
      by_cases hc : cnt > 0 <;> simp [hc, Outcome.issuedOf]
    | error e => simp [Outcome.issuedOf]

/-- C9 witness at the names ["a", "b"]. -/
theorem in_clause_one_placeholder_per_name_witness :
    (getByNamesQuery ["a", "b"] =
      "SELECT * FROM Birds WHERE Formatted_Com_Name IN (" ++
        String.intercalate "," ((List.range (["a", "b"] : List String).length).map
          (fun i => "$" ++ toString (i + 1))) ++ ");")
    ∧ (deleteQuery ["a", "b"] =
      "DELETE FROM Birds WHERE Formatted_Com_Name IN (" ++
        String.intercalate "," ((List.range (["a", "b"] : List String).length).map
          (fun i => "$" ++ toString (i + 1))) ++ ");")
    ∧ (∀ (ts : TableSchema) (db : DB) (body : Body),
        body.birds.isArray = true → body.birdNames = .arrV ["a", "b"] →
        (getBirdsByNames ts db body).issuedOf =
          [(getByNamesQuery ["a", "b"], (["a", "b"] : List String).map some)])
    ∧ (∀ (ts : TableSchema) (db : DB) (body : Body),
        body.names = .arrV ["a", "b"] →
        (deleteBirds ts db body).issuedOf =
          [(deleteQuery ["a", "b"], (["a", "b"] : List String).map some)]) :=
  in_clause_one_placeholder_per_name ["a", "b"] (by simp)

/-- C7: a PUT whose path key matches no stored row answers 404 with the
fixed message and leaves the store unchanged — in particular no row is
inserted.  Stated against the schema that declares every column the UPDATE
statement sets (against the shipped schema the statement itself is rejected,
see the C3 theorem). -/
theorem update_missing_key_404_store_unchanged (db : DB) (body : Body) (birdName : String)
    (h : ∀ r ∈ db, rowGet r "Formatted_Com_Name" ≠ some birdName) :
    updateBird birdsSchemaWithHabitat db birdName body =
      .res 404 (.msg "No bird found with the provided name.") db
        [(updateQuery, putParams body ++ [some birdName])] := by
  have hp : ∀ r ∈ db, (rowGet r birdsSchemaWithHabitat.primaryKey == some birdName) = false := by
    intro r hr
    simpa [show birdsSchemaWithHabitat.primaryKey = "Formatted_Com_Name" from rfl] using h r hr
  have hfilter : db.filter (fun r => rowGet r birdsSchemaWithHabitat.primaryKey == some birdName) = [] := by
    rw [List.filter_eq_nil_iff]
    intro r hr
    simp [hp r hr]
  have hmap : db.map (fun r =>
      if rowGet r birdsSchemaWithHabitat.primaryKey = some birdName then
        updateRow birdsSchemaWithHabitat updateSetColumns (putParams body) r
      else r) = db := by
    have hid : ∀ r ∈ db, (if rowGet r birdsSchemaWithHabitat.primaryKey = some birdName then
        updateRow birdsSchemaWithHabitat updateSetColumns (putParams body) r else r) = r := by
      intro r hr
      have hne2 : ¬ rowGet r birdsSchemaWithHabitat.primaryKey = some birdName := by
        simpa [show birdsSchemaWithHabitat.primaryKey = "Formatted_Com_Name" from rfl]
          using h r hr
      rw [if_neg hne2]
    calc db.map _ = db.map id := List.map_congr_left hid
      _ = db := List.map_id db
  simp only [updateBird, dbUpdate,
    show firstMissingColumn birdsSchemaWithHabitat updateSetColumns = none from rfl]
  simp [hfilter, hmap]

/-- C7 witness: the empty store, key "AmericanRobin". -/
theorem update_missing_key_404_store_unchanged_witness :
    updateBird birdsSchemaWithHabitat [] "AmericanRobin" {} =
      .res 404 (.msg "No bird found with the provided name.") []
        [(updateQuery, putParams {} ++ [some "AmericanRobin"])] :=
  update_missing_key_404_store_unchanged [] {} "AmericanRobin" (by simp)


/-- `any` over a mapped list tests the composed predicate. -/
theorem listAnyMap {α β : Type} (f : α → β) (l : List α) (p : β → Bool) :
    (l.map f).any p = l.any (fun a => p (f a)) := by
  induction l with
  | nil => rfl
  | cons a t ih => simp [List.any_cons, ih]

/-- Two nodup lists of keys match each other in equally many positions:
the matched count is the cardinality of their intersection, read either way. -/
theorem lengthFilterAnyComm (ks ns : List (Option String))
    (h₁ : ks.Nodup) (h₂ : ns.Nodup) :
    (ks.filter (fun k => ns.any (fun n => k == n))).length
      = (ns.filter (fun n => ks.any (fun k => k == n))).length := by
  have e₁ : (ks.filter (fun k => ns.any (fun n => k == n))).toFinset
      = ks.toFinset ∩ ns.toFinset := by
    ext a
    simp [List.mem_filter]
  have e₂ : (ns.filter (fun n => ks.any (fun k => k == n))).toFinset
      = ks.toFinset ∩ ns.toFinset := by
    ext a
    simp [List.mem_filter]
    tauto
  rw [← List.toFinset_card_of_nodup (h₁.filter _), ← List.toFinset_card_of_nodup (h₂.filter _),
    e₁, e₂]

/-- Against a store with pairwise distinct primary keys, the lookup filter
returns one row per distinct supplied name that is present. -/
theorem matchedRowsCount (ts : TableSchema) (db : DB) (ns : List String)
    (hdb : (db.map (fun r => rowGet r ts.primaryKey)).Nodup) (hns : ns.Nodup) :
    (db.filter (fun r => ns.any (fun n => rowGet r ts.primaryKey == some n))).length
      = (ns.filter (fun n => db.any (fun r => rowGet r ts.primaryKey == some n))).length := by
  have hmap2 : (ns.map some).Nodup := hns.map (Option.some_injective _)
  calc (db.filter (fun r => ns.any (fun n => rowGet r ts.primaryKey == some n))).length
      = ((db.map (fun r => rowGet r ts.primaryKey)).filter
          (fun k => ns.any (fun n => k == some n))).length := by
        rw [← List.countP_eq_length_filter, ← List.countP_eq_length_filter, List.countP_map]
        rfl
    _ = ((db.map (fun r => rowGet r ts.primaryKey)).filter
          (fun k => (ns.map some).any (fun n => k == n))).length := by
        apply congrArg
        apply List.filter_congr
        intro k _
        rw [listAnyMap]
    _ = ((ns.map some).filter
          (fun n => (db.map (fun r => rowGet r ts.primaryKey)).any (fun k => k == n))).length :=
        lengthFilterAnyComm _ _ hdb hmap2
    _ = (ns.filter
          (fun n => (db.map (fun r => rowGet r ts.primaryKey)).any (fun k => k == some n))).length := by
        rw [← List.countP_eq_length_filter, ← List.countP_eq_length_filter, List.countP_map]
        rfl
    _ = (ns.filter (fun n => db.any (fun r => rowGet r ts.primaryKey == some n))).length := by
        apply congrArg
        apply List.filter_congr
        intro n _
        rw [listAnyMap]


/-- C4 counterexample: supplying N = 0 names (M = 0 of them present) does
not answer 200 — the empty `IN ()` clause is rejected and the route answers
400. -/
theorem lookup_empty_names_not_200 :
    (getBirdsByNames birdsSchema [] { birds := .arrV [], birdNames := .arrV [] }).statusOf
      ≠ some 200 := by decide

/-- C4 (amended to N ≥ 1 supplied names): the lookup answers 200 with
exactly the store rows whose key is among the supplied names — one row per
distinct supplied name present in the store (M of them), no error regardless
of the match count, every returned row taken from the store (so no
placeholder rows for the missing names). -/
theorem lookup_returns_exactly_matches (ts : TableSchema) (db : DB) (body : Body)
    (ns : List String) (hb : body.birds.isArray = true) (hn : body.birdNames = .arrV ns)
    (hne : ns ≠ []) (hdb : (db.map (fun r => rowGet r ts.primaryKey)).Nodup) :
    getBirdsByNames ts db body =
      .res 200 (.rows (db.filter (fun r => ns.any (fun n => rowGet r ts.primaryKey == some n))))
        db [(getByNamesQuery ns, ns.map some)]
    ∧ (db.filter (fun r => ns.any (fun n => rowGet r ts.primaryKey == some n))).length
        = (ns.dedup.filter (fun n => db.any (fun r => rowGet r ts.primaryKey == some n))).length
    ∧ ∀ r ∈ db.filter (fun r => ns.any (fun n => rowGet r ts.primaryKey == some n)), r ∈ db := by
  have hmw : mwValidBirdsBody body = .next := by simp [mwValidBirdsBody, hb]
  have hemp : ns.isEmpty = false := by simp [hne]
  refine ⟨?_, ?_, ?_⟩
  · simp [getBirdsByNames, hmw, getBirdsByNamesHandler, hn, dbSelectByNames, hemp]
  · have hsame : db.filter (fun r => ns.any (fun n => rowGet r ts.primaryKey == some n))
        = db.filter (fun r => ns.dedup.any (fun n => rowGet r ts.primaryKey == some n)) := by
      apply List.filter_congr
      intro r _
      rw [Bool.eq_iff_iff]
      simp [List.any_eq_true, List.mem_dedup]
    rw [hsame]
    exact matchedRowsCount ts db ns.dedup hdb (List.nodup_dedup ns)
  · intro r hr
    exact (List.mem_filter.mp hr).1

/-- C4 witness: the spec scenario — two names supplied, one present. -/
theorem lookup_returns_exactly_matches_witness :
    getBirdsByNames birdsSchema [robinRow]
        { birds := .arrV [], birdNames := .arrV ["AmericanRobin", "NotARealBird"] } =
      .res 200 (.rows ([robinRow].filter (fun r => (["AmericanRobin", "NotARealBird"] : List String).any
          (fun n => rowGet r birdsSchema.primaryKey == some n))))
        [robinRow]
        [(getByNamesQuery ["AmericanRobin", "NotARealBird"],
          (["AmericanRobin", "NotARealBird"] : List String).map some)]
    ∧ ([robinRow].filter (fun r => (["AmericanRobin", "NotARealBird"] : List String).any
          (fun n => rowGet r birdsSchema.primaryKey == some n))).length
        = ((["AmericanRobin", "NotARealBird"] : List String).dedup.filter
            (fun n => [robinRow].any (fun r => rowGet r birdsSchema.primaryKey == some n))).length
    ∧ ∀ r ∈ [robinRow].filter (fun r => (["AmericanRobin", "NotARealBird"] : List String).any
          (fun n => rowGet r birdsSchema.primaryKey == some n)), r ∈ [robinRow] :=
  lookup_returns_exactly_matches birdsSchema [robinRow]
    { birds := .arrV [], birdNames := .arrV ["AmericanRobin", "NotARealBird"] }
    ["AmericanRobin", "NotARealBird"] rfl rfl (by simp) (by decide)

/-- C5 counterexample: a delete with an empty names array affects zero rows
yet answers 400 (invalid `IN ()`), not the claimed 404. -/
theorem delete_zero_affected_not_always_404 :
    (deleteBirds birdsSchema [] { names := .arrV [] }).statusOf = some 400
    ∧ (deleteBirds birdsSchema [] { names := .arrV [] }).statusOf ≠ some 404 :=
  ⟨rfl, by decide⟩

/-- C5 (amended to non-empty names arrays): with at least one row affected
the route answers 200 with the "<rowCount> bird(s) deleted successfully."
message and echoes the requested names verbatim — even when fewer rows were
deleted than names requested; with zero rows affected it answers 404 with
the fixed message and the same verbatim echo. -/
theorem delete_counts_and_echoes_requested_names (ts : TableSchema) (db : DB) (body : Body)
    (ns : List String) (hn : body.names = .arrV ns) (hne : ns ≠ []) :
    deleteBirds ts db body =
      if 0 < (db.filter (fun r => ns.any (fun n => rowGet r ts.primaryKey == some n))).length then
        .res 200 (.msgNames
            (toString (db.filter (fun r => ns.any (fun n => rowGet r ts.primaryKey == some n))).length
              ++ " bird(s) deleted successfully.") ns)
          (db.filter (fun r => !(ns.any (fun n => rowGet r ts.primaryKey == some n))))
          [(deleteQuery ns, ns.map some)]
      else
        .res 404 (.msgNames "No birds found with the provided names." ns)
          (db.filter (fun r => !(ns.any (fun n => rowGet r ts.primaryKey == some n))))
          [(deleteQuery ns, ns.map some)] := by
  have hemp : ns.isEmpty = false := by simp [hne]
  by_cases hc : 0 < (db.filter (fun r => ns.any (fun n => rowGet r ts.primaryKey == some n))).length
  · simp [deleteBirds, hn, dbDelete, hemp, hc]
  · simp [deleteBirds, hn, dbDelete, hemp, hc]

/-- C5 witness: two names requested, one stored; the delete answers 200,
reports one deletion and echoes both requested names. -/
theorem delete_counts_and_echoes_requested_names_witness :
    deleteBirds birdsSchema [robinRow] { names := .arrV ["AmericanRobin", "NotARealBird"] } =
      if 0 < ([robinRow].filter (fun r => (["AmericanRobin", "NotARealBird"] : List String).any
          (fun n => rowGet r birdsSchema.primaryKey == some n))).length then
        .res 200 (.msgNames
            (toString ([robinRow].filter (fun r => (["AmericanRobin", "NotARealBird"] : List String).any
                (fun n => rowGet r birdsSchema.primaryKey == some n))).length
              ++ " bird(s) deleted successfully.") ["AmericanRobin", "NotARealBird"])
          ([robinRow].filter (fun r => !((["AmericanRobin", "NotARealBird"] : List String).any
            (fun n => rowGet r birdsSchema.primaryKey == some n))))
          [(deleteQuery ["AmericanRobin", "NotARealBird"],
            (["AmericanRobin", "NotARealBird"] : List String).map some)]
      else
        .res 404 (.msgNames "No birds found with the provided names."
            ["AmericanRobin", "NotARealBird"])
          ([robinRow].filter (fun r => !((["AmericanRobin", "NotARealBird"] : List String).any
            (fun n => rowGet r birdsSchema.primaryKey == some n))))
          [(deleteQuery ["AmericanRobin", "NotARealBird"],
            (["AmericanRobin", "NotARealBird"] : List String).map some)] :=
  delete_counts_and_echoes_requested_names birdsSchema [robinRow]
    { names := .arrV ["AmericanRobin", "NotARealBird"] }
    ["AmericanRobin", "NotARealBird"] rfl (by simp)


/-- C6: when a POST succeeds (the store accepted the insert and the route
answered 200 with row r and new store db2), a GET / lookup against db2
supplying the inserted record's key returns exactly [r] — the inserted
record, equal in every field.  Stated against the schema that declares every
column the INSERT names (under the shipped schema no insert succeeds, see
the C3 theorem). -/
theorem create_then_lookup_roundtrip (db db2 : DB) (body lookupBody : Body) (k : String)
    (r : Row) (is : List Issued)
    (hpost : addBird birdsSchemaWithHabitat db body = .res 200 (.row r) db2 is)
    (hk : body.formattedComName = some k)
    (hb : lookupBody.birds.isArray = true)
    (hn : lookupBody.birdNames = .arrV [k]) :
    getBirdsByNames birdsSchemaWithHabitat db2 lookupBody =
      .res 200 (.rows [r]) db2 [(getByNamesQuery [k], [some k])] := by
  have hkey : rowGet (mkRow birdsSchemaWithHabitat insertColumns (postParams body))
      birdsSchemaWithHabitat.primaryKey = body.formattedComName := rfl
  have hkk : rowGet (mkRow birdsSchemaWithHabitat insertColumns (postParams body))
      birdsSchemaWithHabitat.primaryKey = some k := hkey.trans hk
  have hmw : mwValidBirdsBody lookupBody = .next := by simp [mwValidBirdsBody, hb]
  cases hins : dbInsert birdsSchemaWithHabitat insertColumns (postParams body) db with
  | error e =>
    simp only [addBird, hins] at hpost
    exact absurd hpost (by simp)
  | ok p =>
    obtain ⟨row, dbNew⟩ := p
    simp only [addBird, hins] at hpost
    simp only [Outcome.res.injEq, RespBody.row.injEq] at hpost
    obtain ⟨-, hrow, hdb2, -⟩ := hpost
    simp only [dbInsert,
      show firstMissingColumn birdsSchemaWithHabitat insertColumns = none from rfl] at hins
    cases hnv : nullViolation birdsSchemaWithHabitat
        (mkRow birdsSchemaWithHabitat insertColumns (postParams body)) with
    | some c =>
      rw [hnv] at hins
      exact absurd hins (by simp)
    | none =>
      rw [hnv] at hins
      by_cases hdup : db.any (fun rr => rowGet rr birdsSchemaWithHabitat.primaryKey ==
          rowGet (mkRow birdsSchemaWithHabitat insertColumns (postParams body))
            birdsSchemaWithHabitat.primaryKey) = true
      · simp [hdup] at hins
      · simp only [hdup, if_false, Bool.not_eq_true] at hins
        rw [if_neg (by simp [hdup])] at hins
        simp only [Except.ok.injEq, Prod.mk.injEq] at hins
        obtain ⟨hrow2, hdbNew⟩ := hins
        have hdup2 : db.any (fun rr =>
            rowGet rr birdsSchemaWithHabitat.primaryKey == some k) = false := by
          rw [show some k = rowGet (mkRow birdsSchemaWithHabitat insertColumns (postParams body))
              birdsSchemaWithHabitat.primaryKey from hkk.symm]
          simpa using hdup
        have hfdb : db.filter (fun rr =>
            rowGet rr birdsSchemaWithHabitat.primaryKey == some k) = [] :=
          List.filter_eq_nil_iff.mpr (List.any_eq_false.mp hdup2)
        have hrowk : rowGet row birdsSchemaWithHabitat.primaryKey = some k := by
          rw [← hrow2]
          exact hkk
        have hrk : rowGet r birdsSchemaWithHabitat.primaryKey = some k := hrow ▸ hrowk
        have hres : db2.filter (fun rr =>
            rowGet rr birdsSchemaWithHabitat.primaryKey == some k) = [r] := by
          rw [← hdb2, ← hdbNew, List.filter_append, hfdb]
          simp [List.filter_cons, hrow2, hrowk, hrow, hrk]
        simp only [getBirdsByNames, hmw, getBirdsByNamesHandler, hn, dbSelectByNames]
        simp [hres]


/-- C6 witness: insert the sample record into the empty store, then look its
key up. -/
theorem create_then_lookup_roundtrip_witness :
    getBirdsByNames birdsSchemaWithHabitat [sampleBirdRow]
        { birds := .arrV [], birdNames := .arrV ["AmericanRobin"] } =
      .res 200 (.rows [sampleBirdRow]) [sampleBirdRow]
        [(getByNamesQuery ["AmericanRobin"], [some "AmericanRobin"])] :=
  create_then_lookup_roundtrip [] [sampleBirdRow] sampleBird
    { birds := .arrV [], birdNames := .arrV ["AmericanRobin"] } "AmericanRobin"
    sampleBirdRow [(insertQuery, postParams sampleBird)] rfl rfl rfl rfl

end BirdApi
